import Mathlib

/-!
# Verification of the asteroids game core (`src/asteroids.js`)

Shallow embedding of the game-world data model and the operations the
claims are about: the entity base class (`GameWorldObject` with its
`update`, `rotate`, `setAngle`, `setPosition`, `destroy`), the
`Ship`/`Bullet`/`Asteroid` variants with their `update`/`explode`
behaviour, the registry (`gameWorldObjects` array with index
bookkeeping), the scoring table, and the per-tick simulation loop
(`updateGameWorld`).

Modelling conventions:
* JavaScript numbers are modelled as exact rationals (`ℚ`).  The claims
  under study are about control flow and integer bookkeeping, not about
  floating-point rounding.
* Reference semantics: an entity's mutations performed through `this`
  are written back into the registry list at the entity's current
  position; the derivations in `Bullet.update` document where the
  original mutates `this` through an alias that is (or is no longer) in
  the array.
* `Math.random()` results and the trigonometric outline vertices of the
  `Asteroid` constructor (which are transcendental, hence not rational)
  are taken as explicit input data (`ChildRand`).  The one
  arithmetically relevant consequence of the constructor's random loop —
  the final value of `this.radius`, overwritten by the last generated
  vertex radius — is computed faithfully (`asteroidFinalRadius`).
-/

/-- 2D vector, source class `Vector` (`src/asteroids.js:101`).  Renamed
`Vec` because `Vector` already exists in the ambient libraries.  The
constructor's non-numeric defaulting to 0 is not needed by the claims:
all construction sites in the source pass numbers. -/
structure Vec where
  x : ℚ
  y : ℚ
  deriving DecidableEq, Repr

/-- Variant tag for the prototype chain: `Ship`, `Bullet`, `Asteroid`
(all extending `GameWorldObject`). -/
inductive Kind where
  | ship
  | bullet
  | asteroid
  deriving DecidableEq, Repr

/-- Enum of game states (`src/asteroids.js:25`). -/
inductive GameState where
  | TITLE_SCREEN_SCENE
  | MAIN_LEVEL_SCENE
  | WIN_LEVEL_SCENE
  | GAME_OVER_SCENE
  | CREDITS_SCENE
  deriving DecidableEq, Repr

/-- Enum of asteroid radius values (`src/asteroids.js:37`). -/
def AsteroidRadius.LARGE : ℚ := 80

/-- `AsteroidRadius.MEDIUM = 40` (`src/asteroids.js:39`). -/
def AsteroidRadius.MEDIUM : ℚ := 40

/-- `AsteroidRadius.SMALL = 20` (`src/asteroids.js:40`). -/
def AsteroidRadius.SMALL : ℚ := 20

/-- Enum of asteroid max velocity values (`src/asteroids.js:47`). -/
def AsteroidMaxVelocity.LARGE : ℚ := 3

/-- `AsteroidMaxVelocity.MEDIUM = 5` (`src/asteroids.js:49`). -/
def AsteroidMaxVelocity.MEDIUM : ℚ := 5

/-- `AsteroidMaxVelocity.SMALL = 7` (`src/asteroids.js:50`). -/
def AsteroidMaxVelocity.SMALL : ℚ := 7

/-- Enum of points awarded per asteroid size (`src/asteroids.js:57`). -/
def AsteroidScore.LARGE : ℚ := 20

/-- `AsteroidScore.MEDIUM = 50` (`src/asteroids.js:59`). -/
def AsteroidScore.MEDIUM : ℚ := 50

/-- `AsteroidScore.SMALL = 100` (`src/asteroids.js:60`). -/
def AsteroidScore.SMALL : ℚ := 100

/-- An object of the game world (`GameWorldObject`, `src/asteroids.js:192`),
together with the fields of its variant subclasses that the claims
need: `kind` is the prototype tag, `rotation` is the `Asteroid`'s
per-tick self-rotation (unused by the other variants). -/
structure GameWorldObject where
  kind : Kind
  /-- `this.gameWorldIndex` — the object's cached location in the
  registry array, set to the array length at construction time; an
  integer because the `destroy` fix-up loop decrements it without a
  lower bound. -/
  gameWorldIndex : ℤ
  position : Vec
  velocity : Vec
  /-- facing, in degrees -/
  angle : ℚ
  radius : ℚ
  /-- `this.geometry` — outline vertices in world space. -/
  geometry : List Vec
  /-- `this.timesWarped` — number of screen-edge wraps since creation. -/
  timesWarped : ℕ
  /-- `this.rotation` — Asteroid-only: degrees per tick. -/
  rotation : ℚ
  deriving DecidableEq, Repr

/-- The game-world state the claims touch: the registry array
`gameWorldObjects`, the scene variable `gameState`, and the `score`
(`src/asteroids.js:703`–`722`). -/
structure GameWorld where
  objects : List GameWorldObject
  gameState : GameState
  score : ℚ
  deriving DecidableEq, Repr

/-- Truncated division's remainder, as JavaScript's `%`: the result of
`a % b` has the sign of the dividend, i.e. `a - b * trunc (a / b)`. -/
def ratTrunc (q : ℚ) : ℤ :=
  if 0 ≤ q then ⌊q⌋ else ⌈q⌉

/-- JavaScript's `%` operator on numbers. -/
def jsMod (a b : ℚ) : ℚ :=
  a - b * (ratTrunc (a / b) : ℚ)

/-- `GameWorldObject.prototype.rotate` (`src/asteroids.js:271`), in its
numeric-argument branch (the non-numeric branch is a no-op/TODO):
`angle += degrees; if (angle >= 360) angle %= 360; else if (angle < 0)
angle += 360`. -/
def GameWorldObject.rotate (o : GameWorldObject) (degrees : ℚ) : GameWorldObject :=
  let a := o.angle + degrees
  if 360 ≤ a then { o with angle := jsMod a 360 }
  else if a < 0 then { o with angle := a + 360 }
  else { o with angle := a }

/-- A value stored in an object's `x`/`y` property, as far as
`setPosition` can observe it (it reads one property level deep, so
property values are modelled non-recursively). -/
inductive JSProp where
  | num (q : ℚ)
  | str (s : String)
  | undef
  | null
  deriving DecidableEq, Repr

/-- A JavaScript value, as far as the defensive setters can observe it:
a number, a string, `undefined`, `null`, or an object (of which only
the `x`/`y` properties are ever read — a missing property reads as
`undefined`). -/
inductive JSVal where
  | num (q : ℚ)
  | str (s : String)
  | undef
  | null
  | obj (xProp yProp : Option JSProp)
  deriving DecidableEq, Repr

/-- The runtime error `setPosition(null)` raises. -/
inductive JSError where
  | typeError
  deriving DecidableEq, Repr

/-- The value read from an object property. -/
def JSProp.toVal : JSProp → JSVal
  | JSProp.num q => JSVal.num q
  | JSProp.str s => JSVal.str s
  | JSProp.undef => JSVal.undef
  | JSProp.null => JSVal.null

/-- `typeof v === 'number'`. -/
def typeofIsNumber : JSVal → Bool
  | JSVal.num _ => true
  | _ => false

/-- `typeof v === 'object'` — true for objects and, famously, for
`null`. -/
def typeofIsObject : JSVal → Bool
  | JSVal.null => true
  | JSVal.obj _ _ => true
  | _ => false

/-- `GameWorldObject.prototype.setAngle` (`src/asteroids.js:288`):
`if (angle !== null && typeof angle === 'number') this.angle = angle;`.
A non-numeric argument leaves the object untouched. -/
def GameWorldObject.setAngle (o : GameWorldObject) (a : JSVal) : GameWorldObject :=
  match a with
  | JSVal.num q => { o with angle := q }
  | _ => o

/-- `GameWorldObject.prototype.setPosition` (`src/asteroids.js:299`),
acting on the position's two fields (modelled as JS values, since the
object branch can write non-numbers into them):

```js
if (typeof x === 'object' && (y === undefined || y === null)) {
    this.position.x = x.x;  this.position.y = x.y;
} else if (typeof x === 'number' && typeof y === 'number') {
    this.position.x = x;  this.position.y = y;
}
```

`typeof null === 'object'`, so `setPosition(null)` enters the first
branch and `null.x` raises a `TypeError` (modelled as `Except.error`);
an object with missing properties writes `undefined` into the
position. -/
def GameWorldObject.setPosition (x y : JSVal) (pos : JSVal × JSVal) :
    Except JSError (JSVal × JSVal) :=
  if typeofIsObject x && (y == JSVal.undef || y == JSVal.null) then
    match x with
    | JSVal.null => Except.error JSError.typeError
    | JSVal.obj xProp yProp =>
        Except.ok ((xProp.map JSProp.toVal).getD JSVal.undef,
                   (yProp.map JSProp.toVal).getD JSVal.undef)
    | _ => Except.ok pos
  else if typeofIsNumber x && typeofIsNumber y then
    Except.ok (x, y)
  else
    Except.ok pos

/-- `GameWorldObject.prototype.update` (`src/asteroids.js:312`), with
the canvas dimensions `w`/`h` as parameters.  Translated step by step:
x velocity added to x position; horizontal wrap (position and every
outline vertex shifted by `canvas.width - 1`, `timesWarped++`); y
velocity added; vertical wrap; finally every outline vertex translated
by the velocity. -/
def GameWorldObject.update (w h : ℚ) (o : GameWorldObject) : GameWorldObject :=
  let o1 : GameWorldObject := { o with position := ⟨o.position.x + o.velocity.x, o.position.y⟩ }
  let o2 : GameWorldObject :=
    if w < o1.position.x then
      { o1 with position := ⟨o1.position.x - (w - 1), o1.position.y⟩,
                geometry := o1.geometry.map (fun v => ⟨v.x - (w - 1), v.y⟩),
                timesWarped := o1.timesWarped + 1 }
    else if o1.position.x < 0 then
      { o1 with position := ⟨o1.position.x + (w - 1), o1.position.y⟩,
                geometry := o1.geometry.map (fun v => ⟨v.x + (w - 1), v.y⟩),
                timesWarped := o1.timesWarped + 1 }
    else o1
  let o3 : GameWorldObject := { o2 with position := ⟨o2.position.x, o2.position.y + o2.velocity.y⟩ }
  let o4 : GameWorldObject :=
    if h < o3.position.y then
      { o3 with position := ⟨o3.position.x, o3.position.y - (h - 1)⟩,
                geometry := o3.geometry.map (fun v => ⟨v.x, v.y - (h - 1)⟩),
                timesWarped := o3.timesWarped + 1 }
    else if o3.position.y < 0 then
      { o3 with position := ⟨o3.position.x, o3.position.y + (h - 1)⟩,
                geometry := o3.geometry.map (fun v => ⟨v.x, v.y + (h - 1)⟩),
                timesWarped := o3.timesWarped + 1 }
    else o3
  { o4 with geometry := o4.geometry.map (fun v => ⟨v.x + o.velocity.x, v.y + o.velocity.y⟩) }

/-- The actual removal position of `Array.prototype.splice(start, 1)`:
negative `start` counts from the end (clamped at 0), `start` past the
end removes nothing. -/
def spliceStart (len : ℕ) (start : ℤ) : ℕ :=
  if start < 0 then ((len : ℤ) + start).toNat else min start.toNat len

/-- The effect of `destroy`'s fix-up loop on one surviving entry:
`gameWorldObjects[i].gameWorldIndex--`. -/
def decIndex (e : GameWorldObject) : GameWorldObject :=
  { e with gameWorldIndex := e.gameWorldIndex - 1 }

/-- `GameWorldObject.prototype.destroy` (`src/asteroids.js:205`) on the
registry array, for the object whose cached index is `stored`:

```js
gameWorldObjects.splice(this.gameWorldIndex, 1);
for (i = this.gameWorldIndex; i < gameWorldObjects.length; i++)
    gameWorldObjects[i].gameWorldIndex--;
```

For `stored ≥ 0` (every call modelled here) the fix-up loop starts at
the splice position; a negative `stored` would make the original read a
property of `undefined` and throw. -/
def GameWorldObject.destroy (objs : List GameWorldObject) (stored : ℤ) :
    List GameWorldObject :=
  let s := spliceStart objs.length stored
  let r := objs.take s ++ objs.drop (s + 1)
  r.take s ++ (r.drop s).map decIndex

/-- The final value of `this.radius` after the `Asteroid` constructor's
geometry loop (`src/asteroids.js:620`–`632`): on every slice the loop
overwrites `this.radius = Math.floor(Math.random() * (maxRadius -
minRadius)) + minRadius`, with `minRadius = radius * 3 / 4` and
`maxRadius = radius` for the nominal tier radius passed in; the field
keeps the value from the last slice.  `u ∈ [0,1)` is that last
`Math.random()` sample. -/
def asteroidFinalRadius (nominal u : ℚ) : ℚ :=
  (⌊u * (nominal - nominal * 3 / 4)⌋ : ℤ) + nominal * 3 / 4

/-- The random draws consumed when one child `Asteroid` is constructed
(`src/asteroids.js:656`–`672`): the two velocity samples (`vx`/`vy` are
`Math.random() * maxVel - maxVel / 2`), the self-rotation sample
(`Math.random() * 8 - 4`), the last per-vertex radius sample, and the
generated outline (whose vertices are trigonometric and enter no claim,
so they are carried as data). -/
structure ChildRand where
  vxU : ℚ
  vyU : ℚ
  rotU : ℚ
  radU : ℚ
  geom : List Vec
  deriving DecidableEq, Repr

/-- One velocity component of a spawned asteroid:
`Math.random() * maxVel - maxVel / 2`. -/
def childVel (maxVel u : ℚ) : ℚ := u * maxVel - maxVel / 2

/-- Construction of a child `Asteroid` as performed inside
`Asteroid.prototype.explode` (`src/asteroids.js:665`–`672`) and pushed
onto the registry: `new Asteroid(new Vector(this.position.x,
this.position.y), new Vector(vx, vy), 0, tier)`.  The base constructor
caches `gameWorldIndex = GameWorld.getObjects().length` (the length at
push time), `timesWarped = 0`; the `Asteroid` constructor draws
`rotation = Math.random() * 8 - 4` and leaves `this.radius` equal to the
last generated vertex radius (`asteroidFinalRadius`). -/
def mkChildAsteroid (len : ℕ) (pos : Vec) (nominal maxVel : ℚ) (r : ChildRand) :
    GameWorldObject :=
  { kind := Kind.asteroid
    gameWorldIndex := (len : ℤ)
    position := pos
    velocity := ⟨childVel maxVel r.vxU, childVel maxVel r.vyU⟩
    angle := 0
    radius := asteroidFinalRadius nominal r.radU
    geometry := r.geom
    timesWarped := 0
    rotation := r.rotU * 8 - 4 }

/-- The three `GameWorld.getObjects().push(new Asteroid(...))` calls of
one `explode` branch, in order: each child reads the array length at
its own push. -/
def pushThreeChildren (objs : List GameWorldObject) (pos : Vec)
    (nominal maxVel : ℚ) (rnd : ℕ → ChildRand) : List GameWorldObject :=
  let o1 := objs ++ [mkChildAsteroid objs.length pos nominal maxVel (rnd 0)]
  let o2 := o1 ++ [mkChildAsteroid o1.length pos nominal maxVel (rnd 1)]
  o2 ++ [mkChildAsteroid o2.length pos nominal maxVel (rnd 2)]

/-- `Asteroid.prototype.explode` (`src/asteroids.js:651`), acting on the
registry for the asteroid at array position `j` (the `this` alias of
the caller): if `this.radius >= AsteroidRadius.MEDIUM` push 3 new
MEDIUM asteroids at `this.position`; else if `this.radius >=
AsteroidRadius.SMALL` push 3 new SMALL asteroids; else push nothing.
In every branch, finally `this.destroy()` (splice at the asteroid's
cached `gameWorldIndex`). -/
def Asteroid.explode (objs : List GameWorldObject) (j : ℕ) (rnd : ℕ → ChildRand) :
    List GameWorldObject :=
  match objs[j]? with
  | none => objs
  | some a =>
    let objs1 :=
      if AsteroidRadius.MEDIUM ≤ a.radius then
        pushThreeChildren objs a.position AsteroidRadius.MEDIUM AsteroidMaxVelocity.MEDIUM rnd
      else if AsteroidRadius.SMALL ≤ a.radius then
        pushThreeChildren objs a.position AsteroidRadius.SMALL AsteroidMaxVelocity.SMALL rnd
      else objs
    GameWorldObject.destroy objs1 a.gameWorldIndex

/-- Number of children `explode` pushes for an exploding radius. -/
def explodeChildCount (r : ℚ) : ℕ :=
  if AsteroidRadius.MEDIUM ≤ r then 3
  else if AsteroidRadius.SMALL ≤ r then 3
  else 0

/-- Squared distance between two centers:
`Math.pow(dx, 2) + Math.pow(dy, 2)` for `dx = p.x - q.x`,
`dy = p.y - q.y`. -/
def dist2 (p q : Vec) : ℚ := (p.x - q.x) ^ 2 + (p.y - q.y) ^ 2

/-- `Math.sqrt d2 < t` for `d2 ≥ 0`, characterized without a square
root: a nonnegative square root is below `t` exactly when `t` is
positive and `d2 < t²`. -/
def sqrtLt (d2 t : ℚ) : Bool := decide (0 < t ∧ d2 < t ^ 2)

/-- The circle-distance collision test shared by `Ship.update`
(`src/asteroids.js:480`) and `Bullet.update` (`src/asteroids.js:554`):
`distanceApart < this.radius * 0.9 + asteroid.radius * 0.9`. -/
def hitTest (self other : GameWorldObject) : Bool :=
  sqrtLt (dist2 self.position other.position)
    (self.radius * (9 / 10) + other.radius * (9 / 10))

/-- `GameWorld.addToScore` (`src/asteroids.js:728`); the
`typeof points === 'number'` guard always passes at the three call
sites, which pass the `AsteroidScore` constants. -/
def addToScore (score points : ℚ) : ℚ := score + points

/-- The points awarded for a hit asteroid (`src/asteroids.js:566`–`572`):
`radius > AsteroidRadius.MEDIUM → LARGE`, else
`radius > AsteroidRadius.SMALL → MEDIUM`, else `SMALL` points. -/
def scorePoints (r : ℚ) : ℚ :=
  if AsteroidRadius.MEDIUM < r then AsteroidScore.LARGE
  else if AsteroidRadius.SMALL < r then AsteroidScore.MEDIUM
  else AsteroidScore.SMALL

/-- `Ship`'s friction coefficient (`src/asteroids.js:373`). -/
def Ship.friction : ℚ := 8 / 1000

/-- The part of `Ship.prototype.update` that mutates the ship itself
(`src/asteroids.js:465`–`469`): the base `update`, then proportional
friction on both velocity components
(`this.velocity.x -= this.velocity.x * this.friction`, same for y). -/
def shipMoved (w h : ℚ) (s : GameWorldObject) : GameWorldObject :=
  let s1 := GameWorldObject.update w h s
  { s1 with velocity := ⟨s1.velocity.x - s1.velocity.x * Ship.friction,
                         s1.velocity.y - s1.velocity.y * Ship.friction⟩ }

/-- The ship's collision scan (`src/asteroids.js:472`–`496`): some
registry entry is an `Asteroid` within the 0.9-scaled collision
distance of the (already moved) ship. -/
def shipScanHit (s2 : GameWorldObject) (objs : List GameWorldObject) : Bool :=
  objs.any (fun e => e.kind == Kind.asteroid && hitTest s2 e)

/-- `Ship.prototype.update` (`src/asteroids.js:454`) for the ship at
array position `selfIdx`: base `update`, then friction (`shipMoved`,
written back in place), then a scan of the registry; the first
asteroid whose center passes the 0.9-scaled distance test sets
`collision`, upon which the game state is set to `GAME_OVER_SCENE` and
the method returns.  The scan's only observable effects are the state
change and the early return, so it is modelled by the existence test
`shipScanHit`. -/
def Ship.update (w h : ℚ) (world : GameWorld) (selfIdx : ℕ) : GameWorld :=
  match world.objects[selfIdx]? with
  | none => world
  | some s0 =>
    let s2 := shipMoved w h s0
    let objs := world.objects.set selfIdx s2
    if shipScanHit s2 objs then
      { world with objects := objs, gameState := GameState.GAME_OVER_SCENE }
    else
      { world with objects := objs }

/-- The bullet's collision scan (`src/asteroids.js:546`–`556`): the
first registry entry (in array order, from index 0) that is an
`Asteroid` and passes the distance test against the bullet. -/
def firstHitAux (b : GameWorldObject) :
    List GameWorldObject → ℕ → Option (ℕ × GameWorldObject)
  | [], _ => none
  | e :: rest, i =>
    if e.kind == Kind.asteroid && hitTest b e then some (i, e)
    else firstHitAux b rest (i + 1)

/-- See `firstHitAux`. -/
def firstHit (b : GameWorldObject) (objs : List GameWorldObject) :
    Option (ℕ × GameWorldObject) :=
  firstHitAux b objs 0

/-- `Bullet.prototype.update` (`src/asteroids.js:533`) for the bullet at
array position `selfIdx`:

* base `update` (mutating the bullet in place in the array);
* scan the registry from index 0 for the first colliding asteroid;
* on a hit: `asteroid.explode()` (which pushes 0 or 3 children and
  splices the asteroid out), `addToScore` keyed on the hit asteroid's
  radius (read through the still-live alias), `this.destroy()`, `break`;
* finally, regardless of the collision outcome:
  `if (this.timesWarped >= 1) this.destroy();`.

Reference-semantics bookkeeping, valid whenever the asteroid's cached
`gameWorldIndex` is its actual position (the registry invariant): after
`explode`'s splice at position `s`, the bullet's own cached index was
decremented by the fix-up loop exactly when its array slot lay after
the splice point (`s < selfIdx`); once the first `this.destroy()` has
spliced the bullet out of the array, no fix-up loop can touch `this`
any more, so the second `destroy` reuses the same cached index. -/
def Bullet.update (w h : ℚ) (world : GameWorld) (selfIdx : ℕ)
    (rnd : ℕ → ChildRand) : GameWorld :=
  match world.objects[selfIdx]? with
  | none => world
  | some b0 =>
    let b1 := GameWorldObject.update w h b0
    let objs1 := world.objects.set selfIdx b1
    match firstHit b1 objs1 with
    | some ja =>
      let a := ja.2
      let objs2 := Asteroid.explode objs1 ja.1 rnd
      let score2 := addToScore world.score (scorePoints a.radius)
      let s := spliceStart (objs1.length + explodeChildCount a.radius) a.gameWorldIndex
      let g2 : ℤ := if s < selfIdx then b1.gameWorldIndex - 1 else b1.gameWorldIndex
      let objs3 := GameWorldObject.destroy objs2 g2
      if 1 ≤ b1.timesWarped then
        { world with objects := GameWorldObject.destroy objs3 g2, score := score2 }
      else
        { world with objects := objs3, score := score2 }
    | none =>
      if 1 ≤ b1.timesWarped then
        { world with objects := GameWorldObject.destroy objs1 b1.gameWorldIndex }
      else
        { world with objects := objs1 }

/-- `Asteroid.prototype.update` (`src/asteroids.js:640`): base `update`
then `this.rotate(this.rotation)`. -/
def Asteroid.update (w h : ℚ) (o : GameWorldObject) : GameWorldObject :=
  let u := GameWorldObject.update w h o
  u.rotate u.rotation

/-- One iteration body of `updateGameWorld`'s loop:
`gameWorldObjects[i].update()`, dispatched through the prototype chain
(with this entity's random stream for a possible explosion). -/
def updateObjectAt (w h : ℚ) (world : GameWorld) (i : ℕ)
    (rnd : ℕ → ChildRand) : GameWorld :=
  match world.objects[i]? with
  | none => world
  | some e =>
    match e.kind with
    | Kind.ship => Ship.update w h world i
    | Kind.bullet => Bullet.update w h world i rnd
    | Kind.asteroid =>
      { world with objects := world.objects.set i (Asteroid.update w h e) }

/-- The update loop of `updateGameWorld` (`src/asteroids.js:1139`–1141):
`for (i = 0; i < gameWorldObjects.length; i++)
gameWorldObjects[i].update();` — the index always advances by one and
the length is re-read every iteration.  `fuel` is an upper bound on the
number of iterations, supplied by `updateGameWorld` below. -/
def tickLoop (w h : ℚ) (rnd : ℕ → ℕ → ChildRand) :
    ℕ → GameWorld → ℕ → GameWorld
  | 0, world, _ => world
  | fuel + 1, world, i =>
    if i < world.objects.length then
      tickLoop w h rnd fuel (updateObjectAt w h world i (rnd i)) (i + 1)
    else world

/-- `isWinConditionMet` (`src/asteroids.js:886`): true exactly when no
registry entry is an `Asteroid`. -/
def isWinConditionMet (objs : List GameWorldObject) : Bool :=
  !objs.any (fun e => e.kind == Kind.asteroid)

/-- `updateGameWorld` (`src/asteroids.js:1133`): one simulation tick in
the playing state — the per-entity update loop followed by the win
check (`if (isWinConditionMet()) setGameState(WIN_LEVEL_SCENE)`).
`handleUserInput` with no keys held touches nothing modelled here and
is omitted.  The fuel `2 * length + 1` strictly bounds the loop's
iteration count: the index advances every iteration and only a bullet
scoring a hit can grow the array (net `+1`), which each bullet does at
most once. -/
def updateGameWorld (w h : ℚ) (world : GameWorld) (rnd : ℕ → ℕ → ChildRand) :
    GameWorld :=
  let w1 := tickLoop w h rnd (2 * world.objects.length + 1) world 0
  if isWinConditionMet w1.objects then
    { w1 with gameState := GameState.WIN_LEVEL_SCENE }
  else w1

/-- The registry bookkeeping invariant: every entry's cached
`gameWorldIndex` is its actual array position. -/
def registryInv (objs : List GameWorldObject) : Prop :=
  ∀ (i : ℕ) (e : GameWorldObject), objs[i]? = some e → e.gameWorldIndex = (i : ℤ)

/-- The horizontal wrap condition of `GameWorldObject.update`: the
tentatively advanced x position leaves the playfield. -/
def crossesX (w : ℚ) (o : GameWorldObject) : Prop :=
  w < o.position.x + o.velocity.x ∨ o.position.x + o.velocity.x < 0

/-- The vertical wrap condition of `GameWorldObject.update`. -/
def crossesY (h : ℚ) (o : GameWorldObject) : Prop :=
  h < o.position.y + o.velocity.y ∨ o.position.y + o.velocity.y < 0

instance (w : ℚ) (o : GameWorldObject) : Decidable (crossesX w o) := by
  unfold crossesX; infer_instance

instance (h : ℚ) (o : GameWorldObject) : Decidable (crossesY h o) := by
  unfold crossesY; infer_instance

/-- A trivial random stream (used in runs where no asteroid explodes,
so no random draw is ever consumed). -/
def rndZero : ℕ → ChildRand := fun _ => ⟨0, 0, 0, 0, []⟩

/-- A trivial two-level random stream for whole ticks. -/
def rndZero2 : ℕ → ℕ → ChildRand := fun _ _ => ⟨0, 0, 0, 0, []⟩

/-- Random draws with every `Math.random()` sample equal to 1/2 (for
witnesses that do spawn children). -/
def rndHalf : ℕ → ChildRand := fun _ => ⟨1 / 2, 1 / 2, 1 / 2, 1 / 2, []⟩

/-- A bullet one tick away from wrapping the right screen edge of a
100×100 playfield and finding no asteroid in range afterwards
(radius 3 is the `Bullet` constructor's value; the single-point
geometry mirrors the constructor). -/
def exBulletC1 : GameWorldObject :=
  { kind := Kind.bullet, gameWorldIndex := 0, position := ⟨99, 50⟩,
    velocity := ⟨5, 0⟩, angle := 0, radius := 3, geometry := [⟨99, 50⟩],
    timesWarped := 0, rotation := 0 }

/-- A SMALL-tier asteroid (constructor radii lie in `[15, 20)`) far
from the bullet, moving right, live for the whole tick. -/
def exAstC1 : GameWorldObject :=
  { kind := Kind.asteroid, gameWorldIndex := 1, position := ⟨80, 80⟩,
    velocity := ⟨1, 0⟩, angle := 0, radius := 17, geometry := [⟨80, 63⟩],
    timesWarped := 0, rotation := 1 }

/-- Registry for the C1 counterexample: the bullet self-destroys by the
expiry rule during the loop's first iteration. -/
def exWorldC1 : GameWorld :=
  { objects := [exBulletC1, exAstC1],
    gameState := GameState.MAIN_LEVEL_SCENE, score := 0 }

/-- A ship (constructor radius 20) sitting on top of an asteroid. -/
def exShipC2 : GameWorldObject :=
  { kind := Kind.ship, gameWorldIndex := 0, position := ⟨100, 100⟩,
    velocity := ⟨0, 0⟩, angle := 90, radius := 20, geometry := [⟨120, 100⟩],
    timesWarped := 0, rotation := 0 }

/-- A LARGE-tier asteroid (constructor radii lie in `[60, 80)`)
colliding with the ship. -/
def exAstC2a : GameWorldObject :=
  { kind := Kind.asteroid, gameWorldIndex := 1, position := ⟨110, 100⟩,
    velocity := ⟨0, 0⟩, angle := 0, radius := 65, geometry := [⟨110, 35⟩],
    timesWarped := 0, rotation := 2 }

/-- A distant LARGE-tier asteroid, live and moving during the whole
tick. -/
def exAstC2b : GameWorldObject :=
  { kind := Kind.asteroid, gameWorldIndex := 2, position := ⟨300, 300⟩,
    velocity := ⟨1, 0⟩, angle := 0, radius := 65, geometry := [⟨300, 235⟩],
    timesWarped := 0, rotation := 1 }

/-- Registry for the C2 counterexample on a 500×500 playfield. -/
def exWorldC2 : GameWorld :=
  { objects := [exShipC2, exAstC2a, exAstC2b],
    gameState := GameState.MAIN_LEVEL_SCENE, score := 0 }

/-- A SMALL-tier asteroid adjacent to where `exBulletC1`'s twin lands
after wrapping: the bullet both wraps and hits it in the same tick. -/
def exAstC4a : GameWorldObject :=
  { kind := Kind.asteroid, gameWorldIndex := 1, position := ⟨6, 50⟩,
    velocity := ⟨0, 0⟩, angle := 0, radius := 17, geometry := [⟨6, 33⟩],
    timesWarped := 0, rotation := 1 }

/-- A bystander SMALL-tier asteroid, hit by nothing. -/
def exAstC4b : GameWorldObject :=
  { kind := Kind.asteroid, gameWorldIndex := 2, position := ⟨80, 80⟩,
    velocity := ⟨0, 0⟩, angle := 0, radius := 17, geometry := [⟨80, 63⟩],
    timesWarped := 0, rotation := 1 }

/-- Registry for the C4 failing input: bullet wraps *and* collides in
one tick (100×100 playfield). -/
def exWorldC4 : GameWorld :=
  { objects := [exBulletC1, exAstC4a, exAstC4b],
    gameState := GameState.MAIN_LEVEL_SCENE, score := 0 }

/-- A plain entity used for the angle counterexamples/witnesses. -/
def exObj : GameWorldObject :=
  { kind := Kind.ship, gameWorldIndex := 0, position := ⟨0, 0⟩,
    velocity := ⟨0, 0⟩, angle := 0, radius := 15, geometry := [],
    timesWarped := 0, rotation := 0 }

/-- An entity whose sub-edge speed still drives its position to the far
edge exactly: `97 + 3 = 100` on a 100-wide playfield. -/
def exMoverC7 : GameWorldObject :=
  { kind := Kind.asteroid, gameWorldIndex := 0, position := ⟨97, 1⟩,
    velocity := ⟨3, 0⟩, angle := 0, radius := 17, geometry := [],
    timesWarped := 0, rotation := 0 }

/-- A slow mover for the C7/C8 witnesses. -/
def exMoverW : GameWorldObject :=
  { kind := Kind.asteroid, gameWorldIndex := 0, position := ⟨1, 1⟩,
    velocity := ⟨2, 0⟩, angle := 0, radius := 17, geometry := [],
    timesWarped := 0, rotation := 0 }

/-- A LARGE-tier asteroid whose constructor drew `u = 1/2` on the last
outline slice: radius `⌊(1/2)·20⌋ + 60 = 70`. -/
def exAstC5 : GameWorldObject :=
  { kind := Kind.asteroid, gameWorldIndex := 0, position := ⟨50, 50⟩,
    velocity := ⟨1, 1⟩, angle := 0, radius := 70, geometry := [⟨50, 0⟩],
    timesWarped := 0, rotation := 2 }

/-- A SMALL-tier asteroid with last sample `u = 1/2`: radius
`⌊(1/2)·5⌋ + 15 = 17`. -/
def exAstC5s : GameWorldObject :=
  { kind := Kind.asteroid, gameWorldIndex := 1, position := ⟨20, 30⟩,
    velocity := ⟨0, 1⟩, angle := 0, radius := 17, geometry := [⟨20, 14⟩],
    timesWarped := 0, rotation := -1 }

/-- Non-colliding ship for the C1 amended witness (400 away from the
asteroid). -/
def exShipW : GameWorldObject :=
  { kind := Kind.ship, gameWorldIndex := 0, position := ⟨100, 100⟩,
    velocity := ⟨0, 0⟩, angle := 90, radius := 20, geometry := [⟨120, 100⟩],
    timesWarped := 0, rotation := 0 }

/-- Far-away asteroid for the C1 amended witness. -/
def exAstW : GameWorldObject :=
  { kind := Kind.asteroid, gameWorldIndex := 1, position := ⟨400, 400⟩,
    velocity := ⟨0, 1⟩, angle := 0, radius := 65, geometry := [⟨400, 335⟩],
    timesWarped := 0, rotation := 3 }

/-- World for the C1 amended witness (500×500). -/
def exWorldW1 : GameWorld :=
  { objects := [exShipW, exAstW],
    gameState := GameState.MAIN_LEVEL_SCENE, score := 0 }

/-- A sample string value for the C9 witness. -/
def strFoo : String := "foo"

/-- Registry entries for the C10 witness. -/
def exReg0 : GameWorldObject :=
  { kind := Kind.ship, gameWorldIndex := 0, position := ⟨10, 10⟩,
    velocity := ⟨0, 0⟩, angle := 90, radius := 20, geometry := [],
    timesWarped := 0, rotation := 0 }

/-- Second registry entry for the C10 witness (a bullet pushed when the
array length was 1). -/
def exReg1 : GameWorldObject :=
  { kind := Kind.bullet, gameWorldIndex := 1, position := ⟨10, 10⟩,
    velocity := ⟨11, 0⟩, angle := 0, radius := 3, geometry := [⟨10, 10⟩],
    timesWarped := 0, rotation := 0 }

/-! ## Helper lemmas -/

theorem update_velocity (w h : ℚ) (o : GameWorldObject) :
    (GameWorldObject.update w h o).velocity = o.velocity := by
  simp only [GameWorldObject.update]
  split_ifs <;> rfl

theorem update_kind (w h : ℚ) (o : GameWorldObject) :
    (GameWorldObject.update w h o).kind = o.kind := by
  simp only [GameWorldObject.update]
  split_ifs <;> rfl

theorem update_position_x (w h : ℚ) (o : GameWorldObject) :
    (GameWorldObject.update w h o).position.x =
      (if w < o.position.x + o.velocity.x then o.position.x + o.velocity.x - (w - 1)
       else if o.position.x + o.velocity.x < 0 then o.position.x + o.velocity.x + (w - 1)
       else o.position.x + o.velocity.x) := by
  simp only [GameWorldObject.update]
  split_ifs <;> rfl

theorem update_position_y (w h : ℚ) (o : GameWorldObject) :
    (GameWorldObject.update w h o).position.y =
      (if h < o.position.y + o.velocity.y then o.position.y + o.velocity.y - (h - 1)
       else if o.position.y + o.velocity.y < 0 then o.position.y + o.velocity.y + (h - 1)
       else o.position.y + o.velocity.y) := by
  simp only [GameWorldObject.update]
  split_ifs <;> rfl

theorem update_timesWarped (w h : ℚ) (o : GameWorldObject) :
    (GameWorldObject.update w h o).timesWarped =
      o.timesWarped + (if crossesX w o then 1 else 0) + (if crossesY h o then 1 else 0) := by
  simp only [GameWorldObject.update, crossesX, crossesY]
  split_ifs <;> first | rfl | tauto

theorem jsMod_bounds (a b : ℚ) (ha : 0 ≤ a) (hb : 0 < b) :
    0 ≤ jsMod a b ∧ jsMod a b < b := by
  have hq : 0 ≤ a / b := div_nonneg ha hb.le
  have heq : jsMod a b = b * Int.fract (a / b) := by
    unfold jsMod ratTrunc
    rw [if_pos hq, Int.fract]
    rw [mul_sub, mul_div_cancel₀ a hb.ne']
  refine ⟨?_, ?_⟩
  · rw [heq]
    exact mul_nonneg hb.le (Int.fract_nonneg _)
  · rw [heq]
    calc b * Int.fract (a / b) < b * 1 :=
          mul_lt_mul_of_pos_left (Int.fract_lt_one _) hb
    _ = b := mul_one b

theorem rotate_angle (o : GameWorldObject) (d : ℚ) :
    (o.rotate d).angle =
      (if 360 ≤ o.angle + d then jsMod (o.angle + d) 360
       else if o.angle + d < 0 then o.angle + d + 360
       else o.angle + d) := by
  simp only [GameWorldObject.rotate]
  split_ifs <;> rfl

/-! ## Claim theorems -/

/-- C3 (corrected).  After `rotate` with a numeric delta the angle is
in `[0, 360)` **provided** the sum `angle + delta` does not drop below
`-360` (the single `+= 360` correction cannot recover more than one
full under-wrap); and `setAngle` performs no normalization at all — it
stores its numeric argument verbatim, so the `[0, 360)` invariant
survives `setAngle` only for arguments already in range. -/
theorem C3_angle_normalization (o : GameWorldObject) (d : ℚ)
    (hd : -360 ≤ o.angle + d) :
    (0 ≤ (o.rotate d).angle ∧ (o.rotate d).angle < 360) ∧
      ∀ a : ℚ, (o.setAngle (JSVal.num a)).angle = a := by
  constructor
  · rw [rotate_angle]
    split_ifs with h1 h2
    · exact jsMod_bounds (o.angle + d) 360 (by linarith) (by norm_num)
    · constructor <;> linarith
    · constructor <;> linarith
  · intro a
    rfl

/-- Witness for C3: a rotation by 10 degrees from angle 0 stays in
range. -/
theorem C3_witness :
    (-360 ≤ exObj.angle + 10) ∧
      ((0 ≤ (exObj.rotate 10).angle ∧ (exObj.rotate 10).angle < 360) ∧
        ∀ a : ℚ, (exObj.setAngle (JSVal.num a)).angle = a) :=
  ⟨by with_unfolding_all decide, C3_angle_normalization exObj 10 (by with_unfolding_all decide)⟩

/-- Counterexample to C3 as stated: rotating an entity whose angle is 0
by `-400` (a numeric delta below `-360`) leaves the angle at `-40`,
outside `[0, 360)`. -/
theorem C3_counterexample :
    (exObj.rotate (-400)).angle = -40 ∧
      ¬(0 ≤ (exObj.rotate (-400)).angle ∧ (exObj.rotate (-400)).angle < 360) := by
  with_unfolding_all decide

/-- C7 (corrected).  After `advance()`/`update()`, each position
component stays in the **closed** interval `[0, edge]` of its axis,
provided it started there and the per-axis speed is at most
`edge − 1` (the wrap correction shifts by `edge − 1`, not `edge`, and
the `> edge` test does not fire at exactly `edge`, so the far edge
itself is reachable and `[0, edge)` is not preserved; speeds between
`edge − 1` and `edge` can even escape `[0, edge]`). -/
theorem C7_position_in_closed_range (w h : ℚ) (o : GameWorldObject)
    (hx0 : 0 ≤ o.position.x) (hx1 : o.position.x ≤ w)
    (hy0 : 0 ≤ o.position.y) (hy1 : o.position.y ≤ h)
    (hvx : |o.velocity.x| ≤ w - 1) (hvy : |o.velocity.y| ≤ h - 1) :
    0 ≤ (GameWorldObject.update w h o).position.x ∧
      (GameWorldObject.update w h o).position.x ≤ w ∧
      0 ≤ (GameWorldObject.update w h o).position.y ∧
      (GameWorldObject.update w h o).position.y ≤ h := by
  obtain ⟨hvx1, hvx2⟩ := abs_le.mp hvx
  obtain ⟨hvy1, hvy2⟩ := abs_le.mp hvy
  simp only [update_position_x, update_position_y]
  refine ⟨?_, ?_, ?_, ?_⟩ <;> split_ifs <;> linarith

/-- Witness for C7: a mover at `(1, 1)` with velocity `(2, 0)` on a
10×10 playfield. -/
theorem C7_witness :
    ((0 : ℚ) ≤ exMoverW.position.x ∧ exMoverW.position.x ≤ 10 ∧
      0 ≤ exMoverW.position.y ∧ exMoverW.position.y ≤ 10 ∧
      |exMoverW.velocity.x| ≤ 9 ∧ |exMoverW.velocity.y| ≤ 9) ∧
      (0 ≤ (GameWorldObject.update 10 10 exMoverW).position.x ∧
        (GameWorldObject.update 10 10 exMoverW).position.x ≤ 10 ∧
        0 ≤ (GameWorldObject.update 10 10 exMoverW).position.y ∧
        (GameWorldObject.update 10 10 exMoverW).position.y ≤ 10) :=
  ⟨⟨by with_unfolding_all decide, by with_unfolding_all decide, by with_unfolding_all decide, by with_unfolding_all decide, by with_unfolding_all decide, by with_unfolding_all decide⟩,
    C7_position_in_closed_range 10 10 exMoverW (by with_unfolding_all decide) (by with_unfolding_all decide) (by with_unfolding_all decide)
      (by with_unfolding_all decide) (by with_unfolding_all decide) (by with_unfolding_all decide)⟩

/-- Counterexample to C7 as stated: on a 100×100 playfield an entity at
`x = 97` with velocity `(3, 0)` (Euclidean speed 3, far below the edge
length) advances to exactly `x = 100`, which the `> 100` wrap test does
not normalize, so the final position is **not** in `[0, 100)`. -/
theorem C7_counterexample :
    (0 ≤ exMoverC7.position.x ∧ exMoverC7.position.x < 100) ∧
      (0 ≤ exMoverC7.position.y ∧ exMoverC7.position.y < 100) ∧
      exMoverC7.velocity.x ^ 2 + exMoverC7.velocity.y ^ 2 < 100 ^ 2 ∧
      (GameWorldObject.update 100 100 exMoverC7).position.x = 100 ∧
      ¬((GameWorldObject.update 100 100 exMoverC7).position.x < 100) := by
  with_unfolding_all decide

/-- C8 (confirmed).  One `update()` call increments `timesWarped` by
exactly one per axis whose tentatively advanced position leaves the
playfield (`crossesX`/`crossesY`): 0 with no crossing, 1 for a single
axis, 2 when both axes wrap in the same tick. -/
theorem C8_wrapCount_counts_axes (w h : ℚ) (o : GameWorldObject) :
    (GameWorldObject.update w h o).timesWarped =
      o.timesWarped + (if crossesX w o then 1 else 0) +
        (if crossesY h o then 1 else 0) :=
  update_timesWarped w h o

/-- C9 (corrected).  `setAngle` is fully defensive: any non-numeric
argument is a no-op.  `setPosition` is defensive only outside its
object branch: if the first argument is not object-typed and the pair
is not numeric, nothing happens and nothing is thrown.  But
`typeof null === 'object'`, so `setPosition(null)` dereferences `null`
and raises, and an object without numeric `x`/`y` overwrites the
position with the (possibly `undefined`) property values instead of
ignoring them — witnessed by the third conjunct. -/
theorem C9_setters_defensiveness (o : GameWorldObject) (a x y : JSVal)
    (p : JSVal × JSVal)
    (hna : typeofIsNumber a = false)
    (hnx : typeofIsObject x = false)
    (hxy : (typeofIsNumber x && typeofIsNumber y) = false) :
    o.setAngle a = o ∧
      GameWorldObject.setPosition x y p = Except.ok p ∧
      ∀ q : JSVal × JSVal,
        GameWorldObject.setPosition (JSVal.obj none none) JSVal.undef q =
          Except.ok (JSVal.undef, JSVal.undef) := by
  refine ⟨?_, ?_, fun q => rfl⟩
  · cases a <;> simp_all [GameWorldObject.setAngle, typeofIsNumber]
  · have c1 : (typeofIsObject x && (y == JSVal.undef || y == JSVal.null)) = false := by
      rw [hnx, Bool.false_and]
    simp [GameWorldObject.setPosition, c1, hxy]

/-- Witness for C9: a string first argument with an absent second
argument is ignored by both setters. -/
theorem C9_witness :
    (typeofIsNumber (JSVal.str strFoo) = false ∧
      typeofIsObject (JSVal.str strFoo) = false ∧
      (typeofIsNumber (JSVal.str strFoo) && typeofIsNumber JSVal.undef) = false) ∧
      (exObj.setAngle (JSVal.str strFoo) = exObj ∧
        GameWorldObject.setPosition (JSVal.str strFoo) JSVal.undef
            (JSVal.num 1, JSVal.num 2) = Except.ok (JSVal.num 1, JSVal.num 2) ∧
        ∀ q : JSVal × JSVal,
          GameWorldObject.setPosition (JSVal.obj none none) JSVal.undef q =
            Except.ok (JSVal.undef, JSVal.undef)) :=
  ⟨⟨rfl, rfl, rfl⟩,
    C9_setters_defensiveness exObj (JSVal.str strFoo) (JSVal.str strFoo) JSVal.undef
      (JSVal.num 1, JSVal.num 2) rfl rfl rfl⟩

/-- Counterexample to C9 as stated: `setPosition(null)` — `null` being
one of the inputs the claim quantifies over — raises a `TypeError`
instead of being a silent no-op. -/
theorem C9_counterexample :
    GameWorldObject.setPosition JSVal.null JSVal.undef (JSVal.num 1, JSVal.num 2) =
      Except.error JSError.typeError := rfl

/-- C4 (code bug), evaluated at the failing input.  In `exWorldC4` the
bullet wraps (`timesWarped` becomes 1) and collides with the SMALL
asteroid at index 1 in the same tick.  The collision branch already
calls `this.destroy()`; the expiry rule then runs unconditionally and
calls `this.destroy()` a second time, which splices out whatever now
occupies the bullet's former slot — the innocent surviving asteroid at
index 0.  Three live entities enter the update; the claim (and the
code's own comments, "remove the bullet …", "destroy the bullet …")
allow only the bullet and the hit asteroid to go, yet the registry ends
empty. -/
theorem C4_double_destroy_eval :
    exWorldC4.objects.length = 3 ∧
      (Bullet.update 100 100 exWorldC4 0 rndZero).objects = [] ∧
      (Bullet.update 100 100 exWorldC4 0 rndZero).score = 100 := by
  with_unfolding_all decide

/-- Counterexample to C1 as stated: in `exWorldC1` the bullet (index 0)
wraps and self-destroys during its own update; the loop then increments
`i` past the asteroid that slid into index 0, so the asteroid — live at
the start of the loop and never destroyed — keeps its pre-tick position
even though an invocation of its `update()` would have moved it. -/
theorem C1_counterexample :
    (updateGameWorld 100 100 exWorldC1 rndZero2).objects.map GameWorldObject.position =
        [exAstC1.position] ∧
      (Asteroid.update 100 100 exAstC1).position ≠ exAstC1.position := by
  with_unfolding_all decide

/-- Counterexample to C2 as stated: in `exWorldC2` the ship collides
with the asteroid at index 1, the scene becomes `GAME_OVER_SCENE` —
and yet the tick's remaining per-entity work still runs: the distant
asteroid at index 2 is updated (its position advances) after the
collision was detected, because `Ship.update`'s early return only
leaves the ship's own method, not the `updateGameWorld` loop. -/
theorem C2_counterexample :
    (updateGameWorld 500 500 exWorldC2 rndZero2).gameState = GameState.GAME_OVER_SCENE ∧
      (updateGameWorld 500 500 exWorldC2 rndZero2).objects[2]? =
        some (Asteroid.update 500 500 exAstC2b) ∧
      (Asteroid.update 500 500 exAstC2b).position ≠ exAstC2b.position := by
  with_unfolding_all decide

theorem destroy_eq (objs : List GameWorldObject) (k : ℕ) (hk : k ≤ objs.length) :
    GameWorldObject.destroy objs (k : ℤ) =
      objs.take k ++ (objs.drop (k + 1)).map decIndex := by
  have h1 : ¬((k : ℤ) < 0) := by omega
  have hlen : (objs.take k).length = k := by
    rw [List.length_take]; omega
  simp only [GameWorldObject.destroy, spliceStart, if_neg h1, Int.toNat_natCast,
    min_eq_left hk]
  rw [List.take_append_of_le_length (by omega), List.take_take, min_self]
  have h4 := @List.drop_append _ (objs.take k) (objs.drop (k + 1)) 0
  rw [hlen] at h4
  simp only [Nat.add_zero, List.drop_zero] at h4
  rw [h4]

/-- C10 (confirmed).  The registry's index bookkeeping is
self-maintaining: (a) pushing a newly constructed entity — whose
constructor cached `gameWorldIndex = gameWorldObjects.length` — onto a
registry satisfying the invariant preserves it (this covers the ship
at level start, `Ship.fire`'s bullet, and every asteroid push); (b) a
single `destroy()` of a live entity (one whose cached index `k` is its
actual position) splices it out and re-indexes every later entry, again
preserving the invariant. -/
theorem C10_registry_invariant :
    (∀ (objs : List GameWorldObject) (e : GameWorldObject),
        registryInv objs → e.gameWorldIndex = (objs.length : ℤ) →
        registryInv (objs ++ [e])) ∧
      ∀ (objs : List GameWorldObject) (k : ℕ),
        registryInv objs → k < objs.length →
        registryInv (GameWorldObject.destroy objs (k : ℤ)) := by
  constructor
  · intro objs e hinv he i x hx
    rw [List.getElem?_append] at hx
    rcases lt_trichotomy i objs.length with hlt | heq | hgt
    · rw [if_pos hlt] at hx
      exact hinv i x hx
    · rw [if_neg (by omega)] at hx
      subst heq
      simp at hx
      subst hx
      exact he
    · rw [if_neg (by omega)] at hx
      have h5 : i - objs.length = i - objs.length - 1 + 1 := by omega
      rw [h5] at hx
      simp at hx
  · intro objs k hinv hk i x hx
    rw [destroy_eq objs k hk.le, List.getElem?_append] at hx
    have hlen : (objs.take k).length = k := by
      rw [List.length_take]; omega
    rw [hlen] at hx
    by_cases hik : i < k
    · rw [if_pos hik, List.getElem?_take, if_pos hik] at hx
      exact hinv i x hx
    · rw [if_neg hik, List.getElem?_map, List.getElem?_drop] at hx
      have hidx : k + 1 + (i - k) = i + 1 := by omega
      rw [hidx] at hx
      cases hy : objs[i + 1]? with
      | none => rw [hy] at hx; simp at hx
      | some y =>
        rw [hy] at hx
        simp at hx
        have hyi := hinv (i + 1) y hy
        subst hx
        show y.gameWorldIndex - 1 = (i : ℤ)
        rw [hyi]
        push_cast
        ring

/-- Witness for C10: pushing a bullet constructed at length 1 onto a
one-entry registry, and destroying the live entry at index 0 of a
two-entry registry. -/
theorem C10_witness :
    registryInv ([exReg0] ++ [exReg1]) ∧
      registryInv (GameWorldObject.destroy [exReg0, exReg1] ((0 : ℕ) : ℤ)) := by
  have hinv1 : registryInv [exReg0] := by
    intro i e h
    match i with
    | 0 =>
      simp only [List.getElem?_cons_zero, Option.some.injEq] at h
      subst h
      rfl
    | n + 1 => simp at h
  have hinv2 : registryInv [exReg0, exReg1] := by
    intro i e h
    match i with
    | 0 =>
      simp only [List.getElem?_cons_zero, Option.some.injEq] at h
      subst h
      rfl
    | 1 =>
      simp only [List.getElem?_cons_succ, List.getElem?_cons_zero,
        Option.some.injEq] at h
      subst h
      rfl
    | n + 2 => simp at h
  exact ⟨C10_registry_invariant.1 [exReg0] exReg1 hinv1 rfl,
    C10_registry_invariant.2 [exReg0, exReg1] 0 hinv2 (by norm_num)⟩

theorem foldl_addToScore (l : List ℚ) (s : ℚ) :
    l.foldl addToScore s = s + l.sum := by
  induction l generalizing s with
  | nil => simp
  | cons a t ih =>
    simp only [List.foldl_cons, List.sum_cons, ih, addToScore]
    ring

theorem asteroidFinalRadius_mem (n u : ℚ) (hn : 0 < n) (h0 : 0 ≤ u) (h1 : u < 1) :
    n * 3 / 4 ≤ asteroidFinalRadius n u ∧ asteroidFinalRadius n u < n := by
  have hs : (0 : ℚ) < n - n * 3 / 4 := by linarith
  have hf0 : (0 : ℤ) ≤ ⌊u * (n - n * 3 / 4)⌋ :=
    Int.floor_nonneg.mpr (mul_nonneg h0 hs.le)
  have hf0' : (0 : ℚ) ≤ (⌊u * (n - n * 3 / 4)⌋ : ℚ) := by exact_mod_cast hf0
  have hfl : (⌊u * (n - n * 3 / 4)⌋ : ℚ) ≤ u * (n - n * 3 / 4) := Int.floor_le _
  have hlt : u * (n - n * 3 / 4) < n - n * 3 / 4 := by nlinarith
  unfold asteroidFinalRadius
  constructor <;> linarith

/-- C6 (confirmed).  For asteroids as the constructor actually builds
them (final radius in `[60, 80)` for the LARGE tier, `[30, 40)` for
MEDIUM, `[15, 20)` for SMALL), the scoring branch awards 20/50/100
points by tier; at those radii the strict comparisons of the scoring
branch agree with the non-strict comparisons of `explode` at both tier
thresholds (they could differ only at radius exactly 40 or 20, which no
constructed asteroid has); and folding the three awards through
`addToScore` from 0, in any order, gives exactly 170. -/
theorem C6_score_per_tier (u1 u2 u3 : ℚ)
    (h1 : 0 ≤ u1) (h1' : u1 < 1) (h2 : 0 ≤ u2) (h2' : u2 < 1)
    (h3 : 0 ≤ u3) (h3' : u3 < 1) :
    scorePoints (asteroidFinalRadius AsteroidRadius.LARGE u1) = 20 ∧
      scorePoints (asteroidFinalRadius AsteroidRadius.MEDIUM u2) = 50 ∧
      scorePoints (asteroidFinalRadius AsteroidRadius.SMALL u3) = 100 ∧
      (∀ r, r = asteroidFinalRadius AsteroidRadius.LARGE u1 ∨
          r = asteroidFinalRadius AsteroidRadius.MEDIUM u2 ∨
          r = asteroidFinalRadius AsteroidRadius.SMALL u3 →
        ((AsteroidRadius.MEDIUM < r ↔ AsteroidRadius.MEDIUM ≤ r) ∧
          (AsteroidRadius.SMALL < r ↔ AsteroidRadius.SMALL ≤ r))) ∧
      ∀ l : List ℚ,
        l.Perm [scorePoints (asteroidFinalRadius AsteroidRadius.LARGE u1),
          scorePoints (asteroidFinalRadius AsteroidRadius.MEDIUM u2),
          scorePoints (asteroidFinalRadius AsteroidRadius.SMALL u3)] →
        l.foldl addToScore 0 = 170 := by
  have hL : AsteroidRadius.LARGE = (80 : ℚ) := rfl
  have hM : AsteroidRadius.MEDIUM = (40 : ℚ) := rfl
  have hS : AsteroidRadius.SMALL = (20 : ℚ) := rfl
  have b1 : (60 : ℚ) ≤ asteroidFinalRadius AsteroidRadius.LARGE u1 ∧
      asteroidFinalRadius AsteroidRadius.LARGE u1 < 80 := by
    have hb := asteroidFinalRadius_mem AsteroidRadius.LARGE u1
      (by norm_num [AsteroidRadius.LARGE]) h1 h1'
    exact ⟨by linarith [hb.1, hL], by linarith [hb.2, hL]⟩
  have b2 : (30 : ℚ) ≤ asteroidFinalRadius AsteroidRadius.MEDIUM u2 ∧
      asteroidFinalRadius AsteroidRadius.MEDIUM u2 < 40 := by
    have hb := asteroidFinalRadius_mem AsteroidRadius.MEDIUM u2
      (by norm_num [AsteroidRadius.MEDIUM]) h2 h2'
    exact ⟨by linarith [hb.1, hM], by linarith [hb.2, hM]⟩
  have b3 : (15 : ℚ) ≤ asteroidFinalRadius AsteroidRadius.SMALL u3 ∧
      asteroidFinalRadius AsteroidRadius.SMALL u3 < 20 := by
    have hb := asteroidFinalRadius_mem AsteroidRadius.SMALL u3
      (by norm_num [AsteroidRadius.SMALL]) h3 h3'
    exact ⟨by linarith [hb.1, hS], by linarith [hb.2, hS]⟩
  have s1 : scorePoints (asteroidFinalRadius AsteroidRadius.LARGE u1) = 20 := by
    rw [scorePoints, AsteroidRadius.MEDIUM, AsteroidScore.LARGE,
      if_pos (by linarith [b1.1])]
  have s2 : scorePoints (asteroidFinalRadius AsteroidRadius.MEDIUM u2) = 50 := by
    have hb := b2
    set r := asteroidFinalRadius AsteroidRadius.MEDIUM u2 with hr
    rw [scorePoints, AsteroidRadius.MEDIUM, AsteroidRadius.SMALL,
      AsteroidScore.MEDIUM, if_neg (by linarith [hb.2]),
      if_pos (by linarith [hb.1])]
  have s3 : scorePoints (asteroidFinalRadius AsteroidRadius.SMALL u3) = 100 := by
    have hb := b3
    set r := asteroidFinalRadius AsteroidRadius.SMALL u3 with hr
    rw [scorePoints, AsteroidRadius.MEDIUM, AsteroidRadius.SMALL,
      AsteroidScore.SMALL, if_neg (by linarith [hb.2]),
      if_neg (by linarith [hb.2])]
  refine ⟨s1, s2, s3, ?_, ?_⟩
  · intro r hr
    rw [AsteroidRadius.MEDIUM, AsteroidRadius.SMALL]
    rcases hr with rfl | rfl | rfl
    · exact ⟨⟨le_of_lt, fun _ => by linarith [b1.1]⟩,
        ⟨le_of_lt, fun _ => by linarith [b1.1]⟩⟩
    · exact ⟨⟨fun hc => by linarith [b2.2], fun hc => by linarith [b2.2]⟩,
        ⟨le_of_lt, fun _ => by linarith [b2.1]⟩⟩
    · exact ⟨⟨fun hc => by linarith [b3.2], fun hc => by linarith [b3.2]⟩,
        ⟨fun hc => by linarith [b3.2], fun hc => by linarith [b3.2]⟩⟩
  · intro l hp
    rw [foldl_addToScore, List.Perm.sum_eq hp, s1, s2, s3]
    norm_num

/-- Witness for C6 at `u = 1/2` for all three tiers. -/
theorem C6_witness :
    ((0 : ℚ) ≤ 1 / 2 ∧ (1 / 2 : ℚ) < 1) ∧
      (scorePoints (asteroidFinalRadius AsteroidRadius.LARGE (1 / 2)) = 20 ∧
        scorePoints (asteroidFinalRadius AsteroidRadius.MEDIUM (1 / 2)) = 50 ∧
        scorePoints (asteroidFinalRadius AsteroidRadius.SMALL (1 / 2)) = 100 ∧
        (∀ r, r = asteroidFinalRadius AsteroidRadius.LARGE (1 / 2) ∨
            r = asteroidFinalRadius AsteroidRadius.MEDIUM (1 / 2) ∨
            r = asteroidFinalRadius AsteroidRadius.SMALL (1 / 2) →
          ((AsteroidRadius.MEDIUM < r ↔ AsteroidRadius.MEDIUM ≤ r) ∧
            (AsteroidRadius.SMALL < r ↔ AsteroidRadius.SMALL ≤ r))) ∧
        ∀ l : List ℚ,
          l.Perm [scorePoints (asteroidFinalRadius AsteroidRadius.LARGE (1 / 2)),
            scorePoints (asteroidFinalRadius AsteroidRadius.MEDIUM (1 / 2)),
            scorePoints (asteroidFinalRadius AsteroidRadius.SMALL (1 / 2))] →
          l.foldl addToScore 0 = 170) :=
  ⟨⟨by norm_num, by norm_num⟩,
    C6_score_per_tier (1 / 2) (1 / 2) (1 / 2) (by norm_num) (by norm_num)
      (by norm_num) (by norm_num) (by norm_num) (by norm_num)⟩

/-- C5 (confirmed).  For an asteroid constructed at the LARGE tier
(final radius in `[60, 80)`), `explode()` pushes exactly 3 children
constructed at the MEDIUM tier — each at the exploding asteroid's
current position with facing angle 0 and a MEDIUM-tier radius in
`[30, 40)` — and then removes the parent's slot `k`, re-indexing every
later entry (`decIndex`); the registry grows by exactly 2.  For an
asteroid constructed at the SMALL tier (final radius in `[15, 20)`),
`explode()` pushes nothing and removes the parent's slot; the registry
shrinks by 1.  In both branches the parent's slot is spliced out. -/
theorem C5_explode_by_tier (objs : List GameWorldObject) (k : ℕ)
    (a : GameWorldObject) (u : ℚ) (rnd : ℕ → ChildRand)
    (hk : objs[k]? = some a)
    (hidx : a.gameWorldIndex = (k : ℤ))
    (hu0 : 0 ≤ u) (hu1 : u < 1)
    (hrnd : ∀ i, 0 ≤ (rnd i).radU ∧ (rnd i).radU < 1) :
    (a.radius = asteroidFinalRadius AsteroidRadius.LARGE u →
      Asteroid.explode objs k rnd =
        objs.take k ++ (objs.drop (k + 1)).map decIndex ++
          [decIndex (mkChildAsteroid objs.length a.position AsteroidRadius.MEDIUM
              AsteroidMaxVelocity.MEDIUM (rnd 0)),
            decIndex (mkChildAsteroid (objs.length + 1) a.position AsteroidRadius.MEDIUM
              AsteroidMaxVelocity.MEDIUM (rnd 1)),
            decIndex (mkChildAsteroid (objs.length + 2) a.position AsteroidRadius.MEDIUM
              AsteroidMaxVelocity.MEDIUM (rnd 2))] ∧
        (Asteroid.explode objs k rnd).length = objs.length + 2 ∧
        ∀ i : Fin 3,
          (decIndex (mkChildAsteroid (objs.length + (i : ℕ)) a.position
              AsteroidRadius.MEDIUM AsteroidMaxVelocity.MEDIUM (rnd i))).kind =
              Kind.asteroid ∧
            (decIndex (mkChildAsteroid (objs.length + (i : ℕ)) a.position
                AsteroidRadius.MEDIUM AsteroidMaxVelocity.MEDIUM (rnd i))).position =
              a.position ∧
            (decIndex (mkChildAsteroid (objs.length + (i : ℕ)) a.position
                AsteroidRadius.MEDIUM AsteroidMaxVelocity.MEDIUM (rnd i))).angle = 0 ∧
            30 ≤ (decIndex (mkChildAsteroid (objs.length + (i : ℕ)) a.position
                AsteroidRadius.MEDIUM AsteroidMaxVelocity.MEDIUM (rnd i))).radius ∧
            (decIndex (mkChildAsteroid (objs.length + (i : ℕ)) a.position
                AsteroidRadius.MEDIUM AsteroidMaxVelocity.MEDIUM (rnd i))).radius < 40) ∧
    (a.radius = asteroidFinalRadius AsteroidRadius.SMALL u →
      Asteroid.explode objs k rnd =
        objs.take k ++ (objs.drop (k + 1)).map decIndex ∧
      (Asteroid.explode objs k rnd).length = objs.length - 1) := by
  have hklen : k < objs.length := by
    by_contra hcon
    rw [List.getElem?_eq_none (by omega)] at hk
    exact Option.noConfusion hk
  have hM : AsteroidRadius.MEDIUM = (40 : ℚ) := rfl
  have hS : AsteroidRadius.SMALL = (20 : ℚ) := rfl
  constructor
  · intro hr
    have hbL := asteroidFinalRadius_mem AsteroidRadius.LARGE u
      (by norm_num [AsteroidRadius.LARGE]) hu0 hu1
    have hL : AsteroidRadius.LARGE = (80 : ℚ) := rfl
    have hb : (60 : ℚ) ≤ a.radius ∧ a.radius < 80 := by
      rw [hr]
      exact ⟨by linarith [hbL.1, hL], by linarith [hbL.2, hL]⟩
    have heq : Asteroid.explode objs k rnd =
        objs.take k ++ (objs.drop (k + 1)).map decIndex ++
          [decIndex (mkChildAsteroid objs.length a.position AsteroidRadius.MEDIUM
              AsteroidMaxVelocity.MEDIUM (rnd 0)),
            decIndex (mkChildAsteroid (objs.length + 1) a.position AsteroidRadius.MEDIUM
              AsteroidMaxVelocity.MEDIUM (rnd 1)),
            decIndex (mkChildAsteroid (objs.length + 2) a.position AsteroidRadius.MEDIUM
              AsteroidMaxVelocity.MEDIUM (rnd 2))] := by
      unfold Asteroid.explode
      rw [hk]
      simp only [pushThreeChildren, List.length_append, List.length_cons,
        List.length_nil, Nat.add_zero, Nat.zero_add,
        if_pos (show AsteroidRadius.MEDIUM ≤ a.radius by rw [hM]; linarith [hb.1]),
        List.append_assoc, List.singleton_append]
      rw [hidx]
      rw [destroy_eq _ k
        (by simp only [List.length_append, List.length_cons, List.length_nil]; omega)]
      rw [List.take_append_of_le_length (le_of_lt hklen),
        List.drop_append_of_le_length (by omega), List.map_append]
      norm_num [List.map_append]
    refine ⟨heq, ?_, ?_⟩
    · rw [heq]
      simp only [List.length_append, List.length_take, List.length_map,
        List.length_drop, List.length_cons, List.length_nil]
      omega
    · intro i
      refine ⟨rfl, rfl, rfl, ?_, ?_⟩ <;>
        · have hbm := asteroidFinalRadius_mem AsteroidRadius.MEDIUM ((rnd i).radU)
            (by norm_num [AsteroidRadius.MEDIUM]) (hrnd i).1 (hrnd i).2
          show _
          simp only [decIndex, mkChildAsteroid]
          linarith [hbm.1, hbm.2, hM]
  · intro hr
    have hbS := asteroidFinalRadius_mem AsteroidRadius.SMALL u
      (by norm_num [AsteroidRadius.SMALL]) hu0 hu1
    have hb : (15 : ℚ) ≤ a.radius ∧ a.radius < 20 := by
      rw [hr]
      exact ⟨by linarith [hbS.1, hS], by linarith [hbS.2, hS]⟩
    have heq : Asteroid.explode objs k rnd =
        objs.take k ++ (objs.drop (k + 1)).map decIndex := by
      unfold Asteroid.explode
      rw [hk]
      simp only [if_neg (show ¬AsteroidRadius.MEDIUM ≤ a.radius by
          rw [hM]; linarith [hb.2]),
        if_neg (show ¬AsteroidRadius.SMALL ≤ a.radius by
          rw [hS]; linarith [hb.2])]
      rw [hidx, destroy_eq _ k (by omega)]
    refine ⟨heq, ?_⟩
    rw [heq]
    simp only [List.length_append, List.length_take, List.length_map, List.length_drop]
    omega

theorem shipMoved_kind (w h : ℚ) (s : GameWorldObject) :
    (shipMoved w h s).kind = s.kind := by
  simp only [shipMoved]
  rw [show ({ GameWorldObject.update w h s with
      velocity := ⟨(GameWorldObject.update w h s).velocity.x -
          (GameWorldObject.update w h s).velocity.x * Ship.friction,
        (GameWorldObject.update w h s).velocity.y -
          (GameWorldObject.update w h s).velocity.y * Ship.friction⟩ } :
      GameWorldObject).kind = (GameWorldObject.update w h s).kind from rfl]
  exact update_kind w h s

theorem asteroidUpdate_kind (w h : ℚ) (o : GameWorldObject) :
    (Asteroid.update w h o).kind = o.kind := by
  simp only [Asteroid.update, GameWorldObject.rotate]
  split_ifs <;> exact update_kind w h o

theorem updateObjectAt_asteroid (w h : ℚ) (world : GameWorld) (i : ℕ)
    (rnd : ℕ → ChildRand) (e : GameWorldObject)
    (hget : world.objects[i]? = some e) (hkind : e.kind = Kind.asteroid) :
    updateObjectAt w h world i rnd =
      { world with objects := world.objects.set i (Asteroid.update w h e) } := by
  unfold updateObjectAt
  rw [hget]
  obtain ⟨k, gwi, pos, vel, ang, rad, geo, tw, rot⟩ := e
  change k = Kind.asteroid at hkind
  subst hkind
  rfl

theorem tickLoop_asteroidsOnly (w h : ℚ) (rnd : ℕ → ℕ → ChildRand) :
    ∀ (fuel : ℕ) (world : GameWorld) (i : ℕ),
      world.objects.length ≤ i + fuel →
      (∀ (j : ℕ) (e : GameWorldObject), i ≤ j → world.objects[j]? = some e →
        e.kind = Kind.asteroid) →
      tickLoop w h rnd fuel world i =
        { world with objects :=
            world.objects.take i ++ (world.objects.drop i).map (Asteroid.update w h) } := by
  intro fuel
  induction fuel with
  | zero =>
    intro world i hlen hall
    simp only [tickLoop]
    rw [List.take_of_length_le (by omega), List.drop_of_length_le (by omega),
      List.map_nil, List.append_nil]
  | succ fuel ih =>
    intro world i hlen hall
    simp only [tickLoop]
    by_cases hi : i < world.objects.length
    · rw [if_pos hi]
      have hget : world.objects[i]? = some world.objects[i] :=
        List.getElem?_eq_getElem hi
      have hkind : world.objects[i].kind = Kind.asteroid :=
        hall i world.objects[i] le_rfl hget
      rw [updateObjectAt_asteroid w h world i (rnd i) world.objects[i] hget hkind]
      rw [ih _ (i + 1) (by simp only [List.length_set]; omega) ?hall2]
      case hall2 =>
        intro j e hj hje
        rw [List.getElem?_set_ne (by omega)] at hje
        exact hall j e (by omega) hje
      have hset : world.objects.set i (Asteroid.update w h world.objects[i]) =
          world.objects.take i ++
            Asteroid.update w h world.objects[i] :: world.objects.drop (i + 1) :=
        List.set_eq_take_cons_drop _ hi
      have hlt : (world.objects.take i).length = i := by
        rw [List.length_take]; omega
      have htake : (world.objects.set i (Asteroid.update w h world.objects[i])).take (i + 1) =
          world.objects.take i ++ [Asteroid.update w h world.objects[i]] := by
        rw [hset, show i + 1 = (world.objects.take i).length + 1 from by rw [hlt],
          List.take_append]
        rfl
      have hdrop : (world.objects.set i (Asteroid.update w h world.objects[i])).drop (i + 1) =
          world.objects.drop (i + 1) := by
        conv_lhs => rw [hset, show i + 1 = (world.objects.take i).length + 1 from by rw [hlt],
          List.drop_append]
        rw [List.drop_one, List.tail_cons, hlt]
      congr 1
      rw [htake, hdrop, List.drop_eq_getElem_cons hi, List.map_cons,
        List.append_assoc, List.singleton_append]
    · rw [if_neg hi]
      rw [List.take_of_length_le (by omega), List.drop_of_length_le (by omega),
        List.map_nil, List.append_nil]

theorem updateObjectAt_ship (w h : ℚ) (world : GameWorld) (i : ℕ)
    (rnd : ℕ → ChildRand) (e : GameWorldObject)
    (hget : world.objects[i]? = some e) (hkind : e.kind = Kind.ship) :
    updateObjectAt w h world i rnd = Ship.update w h world i := by
  unfold updateObjectAt
  rw [hget]
  obtain ⟨k, gwi, pos, vel, ang, rad, geo, tw, rot⟩ := e
  change k = Kind.ship at hkind
  subst hkind
  rfl

theorem tickLoop_succ (w h : ℚ) (rnd : ℕ → ℕ → ChildRand) (fuel : ℕ)
    (world : GameWorld) (i : ℕ) :
    tickLoop w h rnd (fuel + 1) world i =
      if i < world.objects.length then
        tickLoop w h rnd fuel (updateObjectAt w h world i (rnd i)) (i + 1)
      else world := rfl

theorem Ship.update_head (w h : ℚ) (world : GameWorld) (s : GameWorldObject)
    (rest : List GameWorldObject) (hobj : world.objects = s :: rest) :
    Ship.update w h world 0 =
      (if shipScanHit (shipMoved w h s) (shipMoved w h s :: rest) then
        { world with objects := shipMoved w h s :: rest,
                     gameState := GameState.GAME_OVER_SCENE }
      else { world with objects := shipMoved w h s :: rest }) := by
  obtain ⟨objs, gs, sc⟩ := world
  change objs = s :: rest at hobj
  subst hobj
  simp only [Ship.update, List.getElem?_cons_zero, List.set_cons_zero]

/-- C1 (corrected).  The per-entity loop guarantees one update per live
entity only when nothing is removed mid-iteration: for the game's
actual registry shape — the ship first, then asteroids — and a tick
with no ship-asteroid collision, every entity live at the start of the
loop is updated exactly once, in registry order (the final registry is
exactly the pointwise update of the initial one).  The claim's
stronger guarantee is false: removing the current entity shifts the
array and the `i++`/`length` loop then skips the entity that slid into
the freed slot (see the counterexample), and children spawned during
the tick are appended to the array and *are* updated within the same
tick. -/
theorem C1_updates_once_when_no_removal (w h : ℚ) (rnd : ℕ → ℕ → ChildRand)
    (world : GameWorld) (s : GameWorldObject) (rest : List GameWorldObject)
    (hobj : world.objects = s :: rest)
    (hs : s.kind = Kind.ship)
    (hrest : rest.all (fun e => e.kind == Kind.asteroid) = true)
    (hne : rest ≠ [])
    (hnohit : shipScanHit (shipMoved w h s) (shipMoved w h s :: rest) = false) :
    updateGameWorld w h world rnd =
      { world with objects := shipMoved w h s :: rest.map (Asteroid.update w h) } := by
  have hrest' : ∀ e ∈ rest, e.kind = Kind.asteroid := by
    intro e he
    simpa using List.all_eq_true.mp hrest e he
  have hget : world.objects[0]? = some s := by
    rw [hobj, List.getElem?_cons_zero]
  have hw1 : tickLoop w h rnd (2 * world.objects.length + 1) world 0 =
      { world with objects := shipMoved w h s :: rest.map (Asteroid.update w h) } := by
    rw [tickLoop_succ]
    rw [if_pos (show 0 < world.objects.length by rw [hobj]; simp)]
    rw [updateObjectAt_ship w h world 0 (rnd 0) s hget hs,
      Ship.update_head w h world s rest hobj, hnohit, if_neg Bool.false_ne_true]
    rw [tickLoop_asteroidsOnly w h rnd (2 * world.objects.length) _ 1 ?hlen ?hall]
    case hlen =>
      show (shipMoved w h s :: rest).length ≤ 1 + 2 * world.objects.length
      rw [hobj]
      simp only [List.length_cons]
      omega
    case hall =>
      intro j e hj hje
      have hje' : (shipMoved w h s :: rest)[j]? = some e := hje
      rw [show j = j - 1 + 1 by omega, List.getElem?_cons_succ] at hje'
      exact hrest' e (List.getElem?_mem hje')
    show ({ world with objects :=
        (shipMoved w h s :: rest).take 1 ++
          ((shipMoved w h s :: rest).drop 1).map (Asteroid.update w h) } : GameWorld) = _
    rw [List.take_succ_cons, List.take_zero, List.drop_succ_cons, List.drop_zero,
      List.singleton_append]
  have hwin : isWinConditionMet (shipMoved w h s :: rest.map (Asteroid.update w h)) =
      false := by
    obtain ⟨r0, rtail, rfl⟩ := List.exists_cons_of_ne_nil hne
    have hk : (Asteroid.update w h r0).kind = Kind.asteroid := by
      rw [asteroidUpdate_kind]
      exact hrest' r0 (by simp)
    simp [isWinConditionMet, hk]
  have hproj : ({ world with
      objects := shipMoved w h s :: rest.map (Asteroid.update w h) } :
        GameWorld).objects =
      shipMoved w h s :: rest.map (Asteroid.update w h) := rfl
  simp only [updateGameWorld]
  rw [hw1, hproj, hwin, if_neg Bool.false_ne_true]

/-- C2 (corrected).  A ship-asteroid collision inside `Ship.update`
does set the scene to `GAME_OVER_SCENE` and returns early — but the
early return only skips the remainder of the ship's own collision
scan.  The remaining per-tick work still executes: every asteroid in
the registry is still updated in the same tick, and the win-condition
check still runs (here it leaves the state at `GAME_OVER_SCENE`
because asteroids remain).  Only the *next* frame's scheduling stops.
For the game's registry shape (ship first, then asteroids), a
colliding tick produces exactly the pointwise-updated registry with
state `GAME_OVER_SCENE`. -/
theorem C2_collision_sets_game_over_but_tick_continues (w h : ℚ)
    (rnd : ℕ → ℕ → ChildRand) (world : GameWorld) (s : GameWorldObject)
    (rest : List GameWorldObject)
    (hobj : world.objects = s :: rest)
    (hs : s.kind = Kind.ship)
    (hrest : rest.all (fun e => e.kind == Kind.asteroid) = true)
    (hhit : shipScanHit (shipMoved w h s) (shipMoved w h s :: rest) = true) :
    updateGameWorld w h world rnd =
      { world with objects := shipMoved w h s :: rest.map (Asteroid.update w h),
                   gameState := GameState.GAME_OVER_SCENE } := by
  have hrest' : ∀ e ∈ rest, e.kind = Kind.asteroid := by
    intro e he
    simpa using List.all_eq_true.mp hrest e he
  have hne : rest ≠ [] := by
    intro hempty
    subst hempty
    rw [shipScanHit, List.any_cons, List.any_nil, Bool.or_false] at hhit
    rw [shipMoved_kind, hs] at hhit
    simp at hhit
  have hget : world.objects[0]? = some s := by
    rw [hobj, List.getElem?_cons_zero]
  have hw1 : tickLoop w h rnd (2 * world.objects.length + 1) world 0 =
      { world with objects := shipMoved w h s :: rest.map (Asteroid.update w h),
                   gameState := GameState.GAME_OVER_SCENE } := by
    rw [tickLoop_succ]
    rw [if_pos (show 0 < world.objects.length by rw [hobj]; simp)]
    rw [updateObjectAt_ship w h world 0 (rnd 0) s hget hs,
      Ship.update_head w h world s rest hobj, hhit, if_pos rfl]
    rw [tickLoop_asteroidsOnly w h rnd (2 * world.objects.length) _ 1 ?hlen ?hall]
    case hlen =>
      show (shipMoved w h s :: rest).length ≤ 1 + 2 * world.objects.length
      rw [hobj]
      simp only [List.length_cons]
      omega
    case hall =>
      intro j e hj hje
      have hje' : (shipMoved w h s :: rest)[j]? = some e := hje
      rw [show j = j - 1 + 1 by omega, List.getElem?_cons_succ] at hje'
      exact hrest' e (List.getElem?_mem hje')
    show GameWorld.mk
        ((shipMoved w h s :: rest).take 1 ++
          ((shipMoved w h s :: rest).drop 1).map (Asteroid.update w h))
        GameState.GAME_OVER_SCENE world.score = _
    rw [List.take_succ_cons, List.take_zero, List.drop_succ_cons, List.drop_zero,
      List.singleton_append]
  have hwin : isWinConditionMet (shipMoved w h s :: rest.map (Asteroid.update w h)) =
      false := by
    obtain ⟨r0, rtail, rfl⟩ := List.exists_cons_of_ne_nil hne
    have hk : (Asteroid.update w h r0).kind = Kind.asteroid := by
      rw [asteroidUpdate_kind]
      exact hrest' r0 (by simp)
    simp [isWinConditionMet, hk]
  have hproj : (GameWorld.mk (shipMoved w h s :: rest.map (Asteroid.update w h))
      GameState.GAME_OVER_SCENE world.score).objects =
      shipMoved w h s :: rest.map (Asteroid.update w h) := rfl
  simp only [updateGameWorld]
  rw [hw1, hproj, hwin, if_neg Bool.false_ne_true]

/-- Witness for C1: a collision-free tick over a ship and one distant
asteroid updates both exactly once. -/
theorem C1_witness :
    (exWorldW1.objects = exShipW :: [exAstW] ∧ exShipW.kind = Kind.ship ∧
      ([exAstW].all (fun e => e.kind == Kind.asteroid)) = true ∧
      ([exAstW] : List GameWorldObject) ≠ [] ∧
      shipScanHit (shipMoved 500 500 exShipW)
        (shipMoved 500 500 exShipW :: [exAstW]) = false) ∧
      updateGameWorld 500 500 exWorldW1 rndZero2 =
        { exWorldW1 with
            objects :=
              shipMoved 500 500 exShipW :: [exAstW].map (Asteroid.update 500 500) } :=
  ⟨⟨rfl, rfl, rfl, by simp, by with_unfolding_all decide⟩,
    C1_updates_once_when_no_removal 500 500 rndZero2 exWorldW1 exShipW [exAstW]
      rfl rfl rfl (by simp) (by with_unfolding_all decide)⟩

/-- Witness for C2: the colliding tick of `exWorldC2` ends in
`GAME_OVER_SCENE` with both asteroids nonetheless updated. -/
theorem C2_witness :
    (exWorldC2.objects = exShipC2 :: [exAstC2a, exAstC2b] ∧
      exShipC2.kind = Kind.ship ∧
      ([exAstC2a, exAstC2b].all (fun e => e.kind == Kind.asteroid)) = true ∧
      shipScanHit (shipMoved 500 500 exShipC2)
        (shipMoved 500 500 exShipC2 :: [exAstC2a, exAstC2b]) = true) ∧
      updateGameWorld 500 500 exWorldC2 rndZero2 =
        { exWorldC2 with
            objects :=
              shipMoved 500 500 exShipC2 ::
                [exAstC2a, exAstC2b].map (Asteroid.update 500 500),
            gameState := GameState.GAME_OVER_SCENE } :=
  ⟨⟨rfl, rfl, rfl, by with_unfolding_all decide⟩,
    C2_collision_sets_game_over_but_tick_continues 500 500 rndZero2 exWorldC2
      exShipC2 [exAstC2a, exAstC2b] rfl rfl rfl (by with_unfolding_all decide)⟩

/-- Witness for C5: exploding a LARGE-tier asteroid (radius 70, last
sample 1/2) on a singleton registry grows it to 3 entries. -/
theorem C5_witness :
    (([exAstC5] : List GameWorldObject)[0]? = some exAstC5 ∧
      exAstC5.gameWorldIndex = ((0 : ℕ) : ℤ) ∧
      exAstC5.radius = asteroidFinalRadius AsteroidRadius.LARGE (1 / 2)) ∧
      (Asteroid.explode [exAstC5] 0 rndHalf).length = [exAstC5].length + 2 :=
  ⟨⟨rfl, rfl, by with_unfolding_all decide⟩,
    ((C5_explode_by_tier [exAstC5] 0 exAstC5 (1 / 2) rndHalf rfl rfl (by norm_num)
        (by norm_num) (fun i => ⟨by norm_num [rndHalf], by norm_num [rndHalf]⟩)).1
      (by with_unfolding_all decide)).2.1⟩
